import Mathlib

/-!
# Verification of the manga-narrator video pan planner

Shallow embedding of the geometry/planning core of the repository:

* `app/chapter_video_builder.py` — `ChapterVideoBuilder._make_pan_plan`,
  `ChapterVideoBuilder.build_chapter` (plan/audio alignment, pre/post roll,
  output versioning);
* `app/video_runner.py` — `VideoRunner._build_clips`,
  `VideoRunner.run_single_img` (result record);
* `app/backends/ffmpeg_backend.py` — `Timeline.render` (per-segment geometry).

Machine integers of the source are modelled as `Int`.  Python's
`int(a / b)` (float division followed by truncation toward zero) is
modelled as exact truncating integer division `Int.tdiv`; this is exact
whenever the quantities fit in a float64 mantissa, which all the
concrete scenarios below do.
-/

namespace MangaNarrator

/-- Python `int(a / b)` for integer `a`, `b`: division truncated toward zero
(idealised to exact rational truncation). -/
def pydiv (a b : Int) : Int := Int.tdiv a b

/-- A dialogue bounding box; only the top edge `y1` is used by the planner
(`dlg["paddle_bbox"]["y1"]`). -/
structure BBox where
  y1 : Int
  deriving Repr, DecidableEq

/-- One element of the `parsed_dialogue` list: an id and an optional
`paddle_bbox` (`none` models both an absent and a falsy bbox, which
`d.get("paddle_bbox")` filters out). -/
structure Dialogue where
  id : Int
  paddle_bbox : Option BBox
  deriving Repr, DecidableEq

/-- The per-document input record (`data`): `image_width`, `image_height`
and the ordered `parsed_dialogue` list. -/
structure Doc where
  image_width : Int
  image_height : Int
  parsed_dialogue : List Dialogue
  deriving Repr, DecidableEq

/-- One entry of the pan plan: `{"dlg_id": ..., "offset": ...}`. -/
structure PanPlanEntry where
  dlg_id : Int
  offset : Int
  deriving Repr, DecidableEq

/-- The one failure mode of `_make_pan_plan`: Python raises
`ZeroDivisionError` at `int(raw_h * self.res_w / raw_w)` when `raw_w == 0`. -/
inductive PlanError where
  | zeroDivision
  deriving Repr, DecidableEq

/-- Model of `dialogs = [d for d in data["parsed_dialogue"] if d.get("paddle_bbox")]`,
paired with the `y1` read later in the loop body. -/
def eligibleDialogues (doc : Doc) : List (Int × Int) :=
  doc.parsed_dialogue.filterMap (fun d => d.paddle_bbox.map (fun b => (d.id, b.y1)))

/-- The offset computed by one iteration of the `for idx, dlg in
enumerate(dialogs)` loop of `_make_pan_plan` (lines 79–94): `idx` is the
enumeration index, `cur` the running `cur_offset`, `y` the bbox top edge. -/
def panStep (res_w raw_w safe_margin first_margin max_offset : Int)
    (idx : Nat) (cur y : Int) : Int :=
  let y_scaled := pydiv (y * res_w) raw_w
  let offset :=
    if idx = 0 then
      max 0 (y_scaled - first_margin)
    else if y_scaled < cur then
      cur
    else
      max 0 (y_scaled - safe_margin)
  min offset max_offset

/-- The `for idx, dlg in enumerate(dialogs)` loop of `_make_pan_plan`:
appends one entry per eligible dialogue and threads `cur_offset`
(initially 0) through `panStep`. -/
def panLoop (res_w raw_w safe_margin first_margin max_offset : Int) :
    List (Int × Int) → Nat → Int → List PanPlanEntry
  | [], _, _ => []
  | (i, y) :: rest, idx, cur =>
    let offset := panStep res_w raw_w safe_margin first_margin max_offset idx cur y
    ⟨i, offset⟩ :: panLoop res_w raw_w safe_margin first_margin max_offset rest (idx + 1) offset

/-- Model of `ChapterVideoBuilder._make_pan_plan`.  `res_w`/`res_h` are the viewport
resolution, `safe_margin` the instance field, and `first_margin` the value
of `int(self.res_h * first_dialog_margin_pct)` (the float multiplication is
abstracted to its integer result; for the defaults `res_h = 1920`,
`first_dialog_margin_pct = 0.02` it is `38`). -/
def make_pan_plan (res_w res_h safe_margin first_margin : Int) (doc : Doc) :
    Except PlanError (List PanPlanEntry) :=
  let raw_w := doc.image_width
  let raw_h := doc.image_height
  if raw_w = 0 then
    .error .zeroDivision
  else
    let scaled_h := pydiv (raw_h * res_w) raw_w
    let max_offset := max 0 (scaled_h - res_h)
    .ok (panLoop res_w raw_w safe_margin first_margin max_offset (eligibleDialogues doc) 0 0)

/-- Whether the offsets of a plan are monotonically non-decreasing in order. -/
def offsetsMonotone : List PanPlanEntry → Bool
  | [] => true
  | [_] => true
  | a :: b :: rest => decide (a.offset ≤ b.offset) && offsetsMonotone (b :: rest)

/-- The length-reconciliation step of `build_chapter` (lines 117–122): when
`len(pan_plan) != len(audio_files)` it warns and truncates both lists to the
minimum length.  The returned `Bool` records whether the warning was printed.
`α` abstracts audio-file paths. -/
def alignPlanAudio {α : Type} (pan_plan : List PanPlanEntry) (audio_files : List α) :
    Bool × List PanPlanEntry × List α :=
  if pan_plan.length ≠ audio_files.length then
    let min_len := min pan_plan.length audio_files.length
    (true, pan_plan.take min_len, audio_files.take min_len)
  else
    (false, pan_plan, audio_files)

/-- The pre-roll / post-roll step of `build_chapter` (lines 138–151).
`pre` models `pre_s > 0` and `post` models `post_s > 0`; `sil_pre` and
`sil_post` are the generated silence clips. -/
def applyRolls {α : Type} (pre post : Bool) (sil_pre sil_post : α)
    (pan_plan : List PanPlanEntry) (audio_files : List α) :
    List PanPlanEntry × List α :=
  let pa :=
    if pre then
      ((⟨-1, 0⟩ : PanPlanEntry) :: pan_plan, sil_pre :: audio_files)
    else
      (pan_plan, audio_files)
  if post then
    let plan2 :=
      match pa.1.getLast? with
      | some last => pa.1 ++ [⟨-2, last.offset⟩]
      | none => [(⟨-2, 0⟩ : PanPlanEntry)]
    (plan2, pa.2 ++ [sil_post])
  else
    pa

/-- Model of `1 + max([int(m.group(1)) for f in existing ...] or [0])` of
`build_chapter` line 164: the next output version.  `existing` abstracts the
version numbers parsed from the `v*.mp4` files found in the output folder. -/
def nextVersion (existing : List Nat) : Nat :=
  1 + existing.foldr max 0

/-- A value of the heterogeneous result dict returned by `run_single_img`. -/
inductive RVal where
  | s (v : String)
  | n (v : Nat)
  deriving Repr, DecidableEq

/-- The result record returned by `VideoRunner.run_single_img`
(lines 165–171), as an ordered field-name/value list. -/
def run_single_img_result {α : Type} (run_id output_file output_folder image : String)
    (audio_files : List α) : List (String × RVal) :=
  [("runid", .s run_id),
   ("output_file", .s output_file),
   ("output_folder", .s output_folder),
   ("num_audio", .n audio_files.length),
   ("image", .s image)]

/-- The vertical offset chosen for clip `idx` in `VideoRunner._build_clips`
(lines 44–46): `offset_y = 0` unless `pan_plan` is truthy (not `None`, not
empty) and `idx < len(pan_plan)`, in which case
`offset_y = int(pan_plan[idx].get("offset", 0))` (entries always carry an
`offset` key, so `.get` never falls back). -/
def clipOffsetY (pan_plan : Option (List PanPlanEntry)) (idx : Nat) : Int :=
  match pan_plan with
  | none => 0
  | some l =>
    if l.isEmpty then 0
    else if h : idx < l.length then (l.get ⟨idx, h⟩).offset
    else 0

/-- Model of `VideoRunner._build_clips`: one clip per audio file, each paired with its
vertical offset.  Only the audio identity and the `offset_y` geometry are
modelled; the remaining `FClip` parameters are pass-through encoder settings. -/
def build_clips {α : Type} (pan_plan : Option (List PanPlanEntry)) (audio_files : List α) :
    List (α × Int) :=
  audio_files.enum.map (fun p => (p.2, clipOffsetY pan_plan p.1))

/-- Python `x or d` for `x : Optional[int]`: yields `d` when `x` is `None`
or the falsy integer `0`. -/
def pyOrInt (x : Option Int) (d : Int) : Int :=
  match x with
  | none => d
  | some v => if v = 0 then d else v

/-- The geometry-relevant fields of an `FClip` consumed by `Timeline.render`.
`image` is `some (raw_w, raw_h)` when `image_path` is set, carrying the
dimensions of the referenced still image; `audio` is whether `a_paths` is
non-empty. -/
structure RClip where
  image : Option (Int × Int)
  audio : Bool
  offset_y : Option Int
  viewport_w : Option Int
  viewport_h : Option Int
  deriving Repr, DecidableEq

/-- The failure modes of `Timeline.render` before any encoding happens:
no clips (line 185), non-positive inner width (line 195), a clip missing
`image_path` or `a_paths` (line 204).  There is no out-of-bounds-crop error. -/
inductive RenderError where
  | noClips
  | sideMarginTooLarge
  | missingPaths
  deriving Repr, DecidableEq

/-- The geometric operations `Timeline.render` emits for one segment:
scale to `inner_w` (height follows aspect), crop `(w, h, x, y)`, optional
pad `(full_w, height, left_margin)` when side margins are positive. -/
structure SegDescr where
  scale_w : Int
  crop_w : Int
  crop_h : Int
  crop_x : Int
  crop_y : Int
  pad : Option (Int × Int × Int)
  deriving Repr, DecidableEq

/-- The geometry descriptor one loop iteration of `Timeline.render` emits for
a clip: `oy = int(clip.offset_y or 0)`, `vh = int(clip.viewport_h or full_h)`,
then scale to `inner_w`, crop `(inner_w, vh, 0, oy)`, optional pad. -/
def segDescr (full_w full_h inner_w sm : Int) (clip : RClip) : SegDescr :=
  let oy := pyOrInt clip.offset_y 0
  let vh := pyOrInt clip.viewport_h full_h
  { scale_w := inner_w
    crop_w := inner_w, crop_h := vh, crop_x := 0, crop_y := oy
    pad := if sm > 0 then some (full_w, vh, sm) else none }

/-- The per-clip geometry of the `for i, clip in enumerate(self.clips)` body
of `Timeline.render` (lines 202–234), including the missing-paths check. -/
def segGeometry (full_w full_h inner_w sm : Int) (clip : RClip) :
    Except RenderError SegDescr :=
  if clip.image.isNone || !clip.audio then
    .error .missingPaths
  else
    .ok (segDescr full_w full_h inner_w sm clip)

/-- The geometry pipeline of `Timeline.render` (lines 180–234): viewport and
margin resolution, the inner-width check, and the per-segment scale/crop/pad
descriptors.  Encoding, probing and file cleanup are external effects and are
not modelled. -/
def render (clips : List RClip) (side_margin_px : Option Int) :
    Except RenderError (List SegDescr) :=
  match clips with
  | [] => .error .noClips
  | first :: _ =>
    let full_w := pyOrInt first.viewport_w 1080
    let full_h := pyOrInt first.viewport_h 1920
    let sm := pyOrInt side_margin_px 0
    let inner_w := full_w - 2 * sm
    if inner_w ≤ 0 then
      .error .sideMarginTooLarge
    else
      clips.mapM (segGeometry full_w full_h inner_w sm)

/-- Semantic observer (not code): the height of a clip's image after the
`scale(inner_w, -1)` step — `floor(raw_h * inner_w / raw_w)` — against which
an out-of-bounds crop would be judged. -/
def scaledInnerH (raw_w raw_h inner_w : Int) : Int :=
  pydiv (raw_h * inner_w) raw_w

/-- The failure modes of `build_chapter` visible at this abstraction level:
no audio files (line 113), or the planner's division by zero. -/
inductive BuildError where
  | noAudio
  | plan (e : PlanError)
  deriving Repr, DecidableEq

/-- What `build_chapter` hands to the renderer and returns: whether the
length-mismatch warning fired, the final plan and audio list, the versioned
output file name, and the result record from `run_single_img`. -/
structure ChapterResult (α : Type) where
  warned : Bool
  pan_plan : List PanPlanEntry
  audio_files : List α
  out_file : String
  result : List (String × RVal)
  deriving Repr, DecidableEq

set_option linter.unusedVariables false in
/-- Model of `ChapterVideoBuilder.build_chapter` (lines 100–180): collect audio
(abstracted to the `audio_files` argument), build the pan plan, reconcile
lengths, add pre/post rolls, pick the next version number from the existing
`v*.mp4` files, and run the renderer.  `version` is the (unread) parameter of
the Python method; `existing` abstracts the version numbers parsed from the
output folder; `run_id` abstracts the timestamp/uuid id generated inside
`run_single_img` (ambient state, identical across compared calls). -/
def build_chapter {α : Type} (res_w res_h safe_margin first_margin : Int) (doc : Doc)
    (audio_files : List α) (version : Int) (pre post : Bool) (sil_pre sil_post : α)
    (existing : List Nat) (run_id out_folder image : String) :
    Except BuildError (ChapterResult α) :=
  if audio_files.isEmpty then
    .error .noAudio
  else
    match make_pan_plan res_w res_h safe_margin first_margin doc with
    | .error e => .error (.plan e)
    | .ok plan0 =>
      let wpa := alignPlanAudio plan0 audio_files
      let pa := applyRolls pre post sil_pre sil_post wpa.2.1 wpa.2.2
      let out_file := "v" ++ toString (nextVersion existing) ++ ".mp4"
      .ok { warned := wpa.1
            pan_plan := pa.1
            audio_files := pa.2
            out_file := out_file
            result := run_single_img_result run_id (out_folder ++ "/" ++ out_file)
              out_folder image pa.2 }

/-! ## Helper lemmas -/

theorem panStep_nonneg_le (res_w raw_w safe_margin first_margin max_offset : Int)
    (idx : Nat) (cur y : Int) (hmo : 0 ≤ max_offset) (hc : 0 ≤ cur) :
    0 ≤ panStep res_w raw_w safe_margin first_margin max_offset idx cur y ∧
      panStep res_w raw_w safe_margin first_margin max_offset idx cur y ≤ max_offset := by
  simp only [panStep]
  split_ifs <;> constructor <;> omega

theorem panLoop_offset_bounds (res_w raw_w safe_margin first_margin max_offset : Int)
    (hmo : 0 ≤ max_offset) :
    ∀ (l : List (Int × Int)) (idx : Nat) (cur : Int), 0 ≤ cur →
      ∀ e ∈ panLoop res_w raw_w safe_margin first_margin max_offset l idx cur,
        0 ≤ e.offset ∧ e.offset ≤ max_offset := by
  intro l
  induction l with
  | nil => intro idx cur _ e he; simp [panLoop] at he
  | cons hd tl ih =>
    obtain ⟨i, y⟩ := hd
    intro idx cur hc e he
    simp only [panLoop, List.mem_cons] at he
    have hstep := panStep_nonneg_le res_w raw_w safe_margin first_margin max_offset idx cur y
      hmo hc
    rcases he with rfl | he
    · exact hstep
    · exact ih (idx + 1) _ hstep.1 e he

/-! ## Claims -/

/-- Claim C1 (evidence of the code bug): the pan plan is not monotonically
non-decreasing, contrary to the docstring of `_make_pan_plan` ("Ensures
offset never decreases").  For a 1000×4000 image, viewport 1080×1920,
`safe_margin = 200`, first-dialogue margin 38 (2% of 1920), two dialogues
both with `y1 = 300` produce offsets 286 then 124: the second iteration
takes the `y_scaled >= cur_offset` branch and `max(0, y_scaled -
safe_margin)` falls back below the current offset. -/
theorem make_pan_plan_monotonicity_failure :
    make_pan_plan 1080 1920 200 38 ⟨1000, 4000, [⟨1, some ⟨300⟩⟩, ⟨2, some ⟨300⟩⟩]⟩ =
      .ok [⟨1, 286⟩, ⟨2, 124⟩] ∧
    offsetsMonotone [⟨1, 286⟩, ⟨2, 124⟩] = false :=
  ⟨rfl, rfl⟩

/-- Claim C2: every entry of a produced pan plan satisfies
`0 ≤ offset ≤ max 0 (scaled_h - viewport_h)` with
`scaled_h = floor(raw_h * viewport_w / raw_w)`, for genuine image dimensions
(`raw_w > 0`, `raw_h ≥ 0`) and a non-negative viewport width (for which the
code's truncating division agrees with the claim's floor). -/
theorem make_pan_plan_offsets_in_range (res_w res_h safe_margin first_margin : Int)
    (doc : Doc) (plan : List PanPlanEntry)
    (hw : 0 < doc.image_width) (hh : 0 ≤ doc.image_height) (hres : 0 ≤ res_w)
    (h : make_pan_plan res_w res_h safe_margin first_margin doc = .ok plan) :
    ∀ e ∈ plan, 0 ≤ e.offset ∧
      e.offset ≤ max 0 (Int.fdiv (doc.image_height * res_w) doc.image_width - res_h) := by
  have hne : ¬ doc.image_width = 0 := by omega
  rw [make_pan_plan] at h
  simp only [hne, if_false] at h
  injection h with h
  subst h
  have hdiv : Int.fdiv (doc.image_height * res_w) doc.image_width =
      pydiv (doc.image_height * res_w) doc.image_width :=
    Int.fdiv_eq_tdiv (mul_nonneg hh hres) (le_of_lt hw)
  rw [hdiv]
  exact panLoop_offset_bounds res_w doc.image_width safe_margin first_margin _
    (le_max_left _ _) (eligibleDialogues doc) 0 0 le_rfl

/-- Witness for C2 at the spec's own scenario: a 1000×2000 image, viewport
1080×1920, single dialogue at `y1 = 300` yields the single entry
`offset = 240`, which lies in `[0, max 0 (2160 - 1920)]`. -/
theorem make_pan_plan_offsets_in_range_witness :
    0 ≤ (⟨1, 240⟩ : PanPlanEntry).offset ∧
      (⟨1, 240⟩ : PanPlanEntry).offset ≤
        max 0 (Int.fdiv ((2000 : Int) * 1080) 1000 - 1920) :=
  make_pan_plan_offsets_in_range 1080 1920 200 38 ⟨1000, 2000, [⟨1, some ⟨300⟩⟩]⟩
    [⟨1, 240⟩] (by decide) (by decide) (by decide) rfl ⟨1, 240⟩ (by decide)

/-- Claim C3: the first eligible dialogue gets
`offset = max(0, y_scaled - first_margin)` with
`y_scaled = floor(y1 * viewport_w / raw_w)`, clamped to `max_offset`;
in the spec's scenario (1000×2000 image, viewport 1080×1920, `y1 = 300`,
margin 38) the offset is 240; and a single dialogue at `y1 = 0` yields
offset 0 for any margin ≥ 0. -/
theorem make_pan_plan_first_dialogue :
    (∀ (res_w res_h safe_margin first_margin : Int) (doc : Doc)
        (i y : Int) (rest : List (Int × Int)) (plan : List PanPlanEntry),
        0 < doc.image_width → 0 ≤ doc.image_height → 0 ≤ res_w → 0 ≤ y →
        eligibleDialogues doc = (i, y) :: rest →
        make_pan_plan res_w res_h safe_margin first_margin doc = .ok plan →
        plan.head? = some ⟨i,
          min (max 0 (Int.fdiv (y * res_w) doc.image_width - first_margin))
            (max 0 (Int.fdiv (doc.image_height * res_w) doc.image_width - res_h))⟩) ∧
    make_pan_plan 1080 1920 200 38 ⟨1000, 2000, [⟨1, some ⟨300⟩⟩]⟩ = .ok [⟨1, 240⟩] ∧
    (∀ (res_w res_h safe_margin first_margin raw_w raw_h i : Int),
        raw_w ≠ 0 → 0 ≤ first_margin →
        make_pan_plan res_w res_h safe_margin first_margin ⟨raw_w, raw_h, [⟨i, some ⟨0⟩⟩]⟩ =
          .ok [⟨i, 0⟩]) := by
  refine ⟨?_, rfl, ?_⟩
  · intro res_w res_h safe_margin first_margin doc i y rest plan hw hh hres hy helig h
    have hne : ¬ doc.image_width = 0 := by omega
    simp only [make_pan_plan, hne, if_false] at h
    injection h with h
    subst h
    rw [helig]
    simp only [panLoop, List.head?_cons, panStep, pydiv, if_true]
    rw [Int.fdiv_eq_tdiv (mul_nonneg hy hres) (le_of_lt hw),
      Int.fdiv_eq_tdiv (mul_nonneg hh hres) (le_of_lt hw)]
  · intro res_w res_h safe_margin first_margin raw_w raw_h i hne hfm
    have hoff : ∀ T : Int, min (max 0 (0 - first_margin)) (max 0 (T - res_h)) = 0 := by
      intro T
      omega
    simp only [make_pan_plan, hne, if_false, eligibleDialogues, List.filterMap,
      Option.map_some, panLoop, panStep, pydiv, zero_mul, Int.zero_tdiv, if_true, hoff]

/-- Witness for C3: the general first-entry formula instantiated at the
spec's scenario reproduces offset 240, and a single dialogue at `y1 = 0`
with margin 38 gets offset 0. -/
theorem make_pan_plan_first_dialogue_witness :
    ([⟨1, 240⟩] : List PanPlanEntry).head? = some ⟨1,
        min (max 0 (Int.fdiv ((300 : Int) * 1080) 1000 - 38))
          (max 0 (Int.fdiv ((2000 : Int) * 1080) 1000 - 1920))⟩ ∧
    make_pan_plan 1080 1920 200 38 ⟨1000, 2000, [⟨7, some ⟨0⟩⟩]⟩ = .ok [⟨7, 0⟩] :=
  ⟨make_pan_plan_first_dialogue.1 1080 1920 200 38 ⟨1000, 2000, [⟨1, some ⟨300⟩⟩]⟩
      1 300 [] [⟨1, 240⟩] (by decide) (by decide) (by decide) (by decide) rfl rfl,
    make_pan_plan_first_dialogue.2.2 1080 1920 200 38 1000 2000 7 (by decide) (by decide)⟩

theorem mapM_segGeometry_ok (full_w full_h inner_w sm : Int) :
    ∀ clips : List RClip, (∀ c ∈ clips, c.image.isSome = true ∧ c.audio = true) →
      clips.mapM (segGeometry full_w full_h inner_w sm) =
        .ok (clips.map (segDescr full_w full_h inner_w sm)) := by
  intro clips
  induction clips with
  | nil => intro _; rfl
  | cons c cs ih =>
    intro hvalid
    have hc := hvalid c (List.mem_cons_self c cs)
    obtain ⟨v, hv⟩ := Option.isSome_iff_exists.mp hc.1
    have hseg : segGeometry full_w full_h inner_w sm c =
        .ok (segDescr full_w full_h inner_w sm c) := by
      simp [segGeometry, hv, hc.2]
    rw [List.mapM_cons, hseg, ih (fun d hd => hvalid d (List.mem_cons_of_mem _ hd)),
      List.map_cons]
    rfl

/-- Claim C4 counterexample: `Timeline.render` performs no out-of-bounds
check.  A 1000×1500 image in a 1080×1920 viewport has scaled height 1620,
so even the clamped offset 0 gives a crop window `0 + 1920 > 1620`, yet the
geometry builder succeeds and emits the crop descriptor. -/
theorem render_missing_out_of_bounds_check :
    ((0 : Int) + 1920 > scaledInnerH 1000 1500 1080) ∧
    render [⟨some (1000, 1500), true, some 0, some 1080, some 1920⟩] none =
      .ok [⟨1080, 1080, 1920, 0, 0, none⟩] :=
  ⟨by decide, rfl⟩

/-- Claim C4 (amended): segment geometry building performs no bounds check
on `offset + viewport_h` against the scaled image height: whenever the
clips are non-empty with image and audio paths set and the inner width is
positive, `render` succeeds and emits each clip's crop descriptor unchanged,
regardless of its offset.  No OutOfBounds error exists. -/
theorem render_emits_crop_unchecked (first : RClip) (rest : List RClip) (smp : Option Int)
    (hvalid : ∀ c ∈ first :: rest, c.image.isSome = true ∧ c.audio = true)
    (hw : 0 < pyOrInt first.viewport_w 1080 - 2 * pyOrInt smp 0) :
    render (first :: rest) smp =
      .ok ((first :: rest).map
        (segDescr (pyOrInt first.viewport_w 1080) (pyOrInt first.viewport_h 1920)
          (pyOrInt first.viewport_w 1080 - 2 * pyOrInt smp 0) (pyOrInt smp 0))) := by
  simp only [render]
  rw [if_neg (by omega)]
  exact mapM_segGeometry_ok _ _ _ _ _ hvalid

/-- Witness for the amended C4: a clip whose crop window
(`offset 500 + 1920`) extends far past its scaled image height 1620 still
renders to its descriptor. -/
theorem render_emits_crop_unchecked_witness :
    render [⟨some (1000, 1500), true, some 500, some 1080, some 1920⟩] none =
      .ok [segDescr 1080 1920 1080 0 ⟨some (1000, 1500), true, some 500, some 1080, some 1920⟩] :=
  render_emits_crop_unchecked ⟨some (1000, 1500), true, some 500, some 1080, some 1920⟩ [] none
    (by decide) (by decide)

/-- Claim C5 counterexample: non-positive raw dimensions do not fail fast.
A document with `raw_h = 0` (or `raw_w < 0`) produces a plan without any
error — there is no InvalidGeometry validation in `_make_pan_plan`. -/
theorem make_pan_plan_accepts_degenerate_dimensions :
    make_pan_plan 1080 1920 200 38 ⟨1000, 0, [⟨1, some ⟨0⟩⟩]⟩ = .ok [⟨1, 0⟩] ∧
    make_pan_plan 1080 1920 200 38 ⟨-1000, 2000, [⟨1, some ⟨300⟩⟩]⟩ = .ok [⟨1, 0⟩] :=
  ⟨rfl, rfl⟩

/-- Claim C5 (amended): plan computation fails fast only for `raw_w = 0`
(Python's ZeroDivisionError, with no partial plan); and segment geometry
does fail fast, before building any segment, when side margins make the
inner width non-positive. -/
theorem plan_and_render_fail_fast_cases :
    (∀ (res_w res_h safe_margin first_margin : Int) (doc : Doc),
        doc.image_width = 0 →
        make_pan_plan res_w res_h safe_margin first_margin doc = .error .zeroDivision) ∧
    (∀ (first : RClip) (rest : List RClip) (smp : Option Int),
        pyOrInt first.viewport_w 1080 - 2 * pyOrInt smp 0 ≤ 0 →
        render (first :: rest) smp = .error .sideMarginTooLarge) := by
  constructor
  · intro _ _ _ _ doc h
    simp [make_pan_plan, h]
  · intro first rest smp h
    simp only [render]
    rw [if_pos h]

/-- Witness for the amended C5: `raw_w = 0` yields the division error, and
a 600-pixel side margin on a 1080-wide viewport (inner width −120) aborts
rendering before any segment. -/
theorem plan_and_render_fail_fast_cases_witness :
    make_pan_plan 1080 1920 200 38 ⟨0, 2000, [⟨1, some ⟨300⟩⟩]⟩ = .error .zeroDivision ∧
    render [⟨some (1000, 1500), true, some 0, some 1080, some 1920⟩] (some 600) =
      .error .sideMarginTooLarge :=
  ⟨plan_and_render_fail_fast_cases.1 1080 1920 200 38 ⟨0, 2000, [⟨1, some ⟨300⟩⟩]⟩ rfl,
    plan_and_render_fail_fast_cases.2 ⟨some (1000, 1500), true, some 0, some 1080, some 1920⟩
      [] (some 600) (by decide)⟩

theorem panLoop_map_dlg_id (res_w raw_w safe_margin first_margin max_offset : Int) :
    ∀ (l : List (Int × Int)) (idx : Nat) (cur : Int),
      (panLoop res_w raw_w safe_margin first_margin max_offset l idx cur).map
          PanPlanEntry.dlg_id = l.map Prod.fst := by
  intro l
  induction l with
  | nil => intro idx cur; rfl
  | cons hd tl ih =>
    obtain ⟨i, y⟩ := hd
    intro idx cur
    simp only [panLoop, List.map_cons, ih]

/-- Claim C6: dialogue units without a bounding box are skipped without
error — the plan carries exactly one entry per bbox-bearing unit, in order —
and `build_chapter` reconciles a plan/audio length mismatch by warning and
truncating both lists to the shorter length, while equal lengths pass
through unchanged without a warning. -/
theorem skipped_bboxes_and_length_alignment :
    (∀ (res_w res_h safe_margin first_margin : Int) (doc : Doc) (plan : List PanPlanEntry),
        make_pan_plan res_w res_h safe_margin first_margin doc = .ok plan →
        plan.map PanPlanEntry.dlg_id = (eligibleDialogues doc).map Prod.fst) ∧
    (∀ (α : Type) (plan : List PanPlanEntry) (audio : List α),
        plan.length ≠ audio.length →
        alignPlanAudio plan audio =
          (true, plan.take (min plan.length audio.length),
            audio.take (min plan.length audio.length))) ∧
    (∀ (α : Type) (plan : List PanPlanEntry) (audio : List α),
        plan.length = audio.length → alignPlanAudio plan audio = (false, plan, audio)) := by
  refine ⟨?_, ?_, ?_⟩
  · intro res_w res_h safe_margin first_margin doc plan h
    by_cases hw : doc.image_width = 0
    · simp [make_pan_plan, hw] at h
    · simp only [make_pan_plan, hw, if_false] at h
      injection h with h
      subst h
      exact panLoop_map_dlg_id res_w doc.image_width safe_margin first_margin _
        (eligibleDialogues doc) 0 0
  · intro α plan audio h
    simp only [alignPlanAudio]
    rw [if_pos h]
  · intro α plan audio h
    simp only [alignPlanAudio]
    rw [if_neg (by omega)]

/-- Witness for C6: a plan with one entry against two audio files warns and
truncates both to length one; matching lengths are left alone; and a
document whose only dialogue has a bbox yields exactly one entry with its
id. -/
theorem skipped_bboxes_and_length_alignment_witness :
    ([⟨1, 240⟩] : List PanPlanEntry).map PanPlanEntry.dlg_id =
      (eligibleDialogues ⟨1000, 2000, [⟨1, some ⟨300⟩⟩, ⟨2, none⟩]⟩).map Prod.fst ∧
    alignPlanAudio [⟨1, 240⟩] ["a", "b"] =
      (true, ([⟨1, 240⟩] : List PanPlanEntry).take (min 1 2), ["a", "b"].take (min 1 2)) ∧
    alignPlanAudio [⟨1, 240⟩] ["a"] = (false, [⟨1, 240⟩], ["a"]) :=
  ⟨skipped_bboxes_and_length_alignment.1 1080 1920 200 38
      ⟨1000, 2000, [⟨1, some ⟨300⟩⟩, ⟨2, none⟩]⟩ [⟨1, 240⟩] rfl,
    skipped_bboxes_and_length_alignment.2.1 String [⟨1, 240⟩] ["a", "b"] (by decide),
    skipped_bboxes_and_length_alignment.2.2 String [⟨1, 240⟩] ["a"] rfl⟩

/-- Claim C7: enabling pre-roll prepends exactly the sentinel entry
`(-1, 0)` to the plan and the silence clip to the audio list; enabling
post-roll appends exactly one sentinel entry `(-2, last offset)` leaving
the rest of the plan unchanged; and a document with zero eligible dialogues
yields an empty base plan. -/
theorem pre_post_roll_entries :
    (∀ (α : Type) (post : Bool) (sp ss : α) (plan : List PanPlanEntry) (audio : List α),
        applyRolls true post sp ss plan audio =
          applyRolls false post sp ss ((⟨-1, 0⟩ : PanPlanEntry) :: plan) (sp :: audio)) ∧
    (∀ (α : Type) (pre : Bool) (sp ss : α) (plan : List PanPlanEntry) (audio : List α)
        (last : PanPlanEntry),
        (applyRolls pre false sp ss plan audio).1.getLast? = some last →
        applyRolls pre true sp ss plan audio =
          ((applyRolls pre false sp ss plan audio).1 ++ [⟨-2, last.offset⟩],
            (applyRolls pre false sp ss plan audio).2 ++ [ss])) ∧
    (∀ (res_w res_h safe_margin first_margin : Int) (doc : Doc),
        doc.image_width ≠ 0 → eligibleDialogues doc = [] →
        make_pan_plan res_w res_h safe_margin first_margin doc = .ok []) := by
  refine ⟨?_, ?_, ?_⟩
  · intro α post sp ss plan audio
    rfl
  · intro α pre sp ss plan audio last h
    cases pre <;>
      simp only [applyRolls, if_true, if_false, Bool.false_eq_true, ite_false, ite_true]
        at h ⊢ <;>
      rw [h]
  · intro res_w res_h safe_margin first_margin doc hne helig
    simp [make_pan_plan, hne, helig, panLoop]

/-- Witness for C7 at concrete lists: the pre-roll equation, a post-roll
append repeating offset 240, and an empty plan for a document whose only
dialogue lacks a bbox. -/
theorem pre_post_roll_entries_witness :
    applyRolls true false "sp" "ss" [⟨1, 240⟩] ["a"] =
      applyRolls false false "sp" "ss" [⟨-1, 0⟩, ⟨1, 240⟩] ["sp", "a"] ∧
    applyRolls false true "sp" "ss" [⟨1, 240⟩] ["a"] =
      ((applyRolls false false "sp" "ss" [⟨1, 240⟩] ["a"]).1 ++ [⟨-2, 240⟩],
        (applyRolls false false "sp" "ss" [⟨1, 240⟩] ["a"]).2 ++ ["ss"]) ∧
    make_pan_plan 1080 1920 200 38 ⟨1000, 2000, [⟨1, none⟩]⟩ = .ok [] :=
  ⟨pre_post_roll_entries.1 String false "sp" "ss" [⟨1, 240⟩] ["a"],
    pre_post_roll_entries.2.1 String false "sp" "ss" [⟨1, 240⟩] ["a"] ⟨1, 240⟩ rfl,
    pre_post_roll_entries.2.2 1080 1920 200 38 ⟨1000, 2000, [⟨1, none⟩]⟩ (by decide) rfl⟩

/-- Claim C8 counterexample: the result record of `run_single_img` has no
`run_id` field — the key is spelled `runid` (line 166). -/
theorem run_single_img_result_no_run_id_field :
    ((run_single_img_result "r" "f" "d" "img" (["a"] : List String)).map Prod.fst).contains
      "run_id" = false :=
  rfl

/-- Claim C8 (amended): on success `run_single_img` returns a record with
exactly the fields `runid` (spelled without the underscore), `output_file`,
`output_folder`, `num_audio` and `image`, where `num_audio` equals the
length of the audio-file list passed in. -/
theorem run_single_img_result_fields (α : Type) (rid f d img : String) (audio : List α) :
    (run_single_img_result rid f d img audio).map Prod.fst =
      ["runid", "output_file", "output_folder", "num_audio", "image"] ∧
    (run_single_img_result rid f d img audio).lookup "num_audio" =
      some (.n audio.length) :=
  ⟨rfl, rfl⟩

/-- Claim C9: in `_build_clips`, clip `i` receives exactly the offset of
plan entry `i` while `i` is within the plan, and offset 0 at any index at
or past the plan's length — in particular at every index when the plan is
`None` or empty. -/
theorem build_clips_offset_assignment {α : Type} (pan_plan : Option (List PanPlanEntry))
    (audio : List α) (idx : Nat) (h : idx < audio.length) :
    (build_clips pan_plan audio)[idx]? =
      some (audio[idx],
        (((pan_plan.getD [])[idx]?).map PanPlanEntry.offset).getD 0) := by
  simp only [build_clips, List.getElem?_map, List.getElem?_enum,
    List.getElem?_eq_getElem h, Option.map_some, Option.map_some']
  rcases pan_plan with _ | l
  · simp [clipOffsetY]
  · simp only [clipOffsetY, Option.getD_some]
    by_cases hl : l.isEmpty
    · rw [List.isEmpty_iff.mp hl]
      simp
    · rw [if_neg hl]
      by_cases hi : idx < l.length
      · rw [dif_pos hi, List.getElem?_eq_getElem hi]
        simp [List.get_eq_getElem]
      · rw [dif_neg hi, List.getElem?_eq_none (by omega)]
        rfl

/-- Witness for C9: with plan `[(1, 50)]` and two audio files, clip 0 gets
offset 50 and clip 1 (past the plan) gets offset 0. -/
theorem build_clips_offset_assignment_witness :
    (build_clips (some [⟨1, 50⟩]) ["a", "b"])[0]? = some ("a", 50) ∧
    (build_clips (some [⟨1, 50⟩]) ["a", "b"])[1]? = some ("b", 0) :=
  ⟨build_clips_offset_assignment (some [⟨1, 50⟩]) ["a", "b"] 0 (by decide),
    build_clips_offset_assignment (some [⟨1, 50⟩]) ["a", "b"] 1 (by decide)⟩

/-- Claim C10: `build_chapter` never reads its `version` parameter — two
calls identical except for `version` return the same output file name and
the same result — because the version is recomputed internally as
`v(1 + max existing version)` from the output folder's contents. -/
theorem build_chapter_ignores_version :
    (∀ (α : Type) (res_w res_h safe_margin first_margin : Int) (doc : Doc)
        (audio : List α) (v1 v2 : Int) (pre post : Bool) (sp ss : α)
        (existing : List Nat) (run_id out_folder image : String),
        build_chapter res_w res_h safe_margin first_margin doc audio v1 pre post sp ss
            existing run_id out_folder image =
          build_chapter res_w res_h safe_margin first_margin doc audio v2 pre post sp ss
            existing run_id out_folder image) ∧
    (∀ (α : Type) (res_w res_h safe_margin first_margin : Int) (doc : Doc)
        (audio : List α) (v : Int) (pre post : Bool) (sp ss : α)
        (existing : List Nat) (run_id out_folder image : String) (r : ChapterResult α),
        build_chapter res_w res_h safe_margin first_margin doc audio v pre post sp ss
            existing run_id out_folder image = .ok r →
        r.out_file = "v" ++ toString (nextVersion existing) ++ ".mp4") := by
  constructor
  · intro α res_w res_h safe_margin first_margin doc audio v1 v2 pre post sp ss existing
      run_id out_folder image
    rfl
  · intro α res_w res_h safe_margin first_margin doc audio v pre post sp ss existing
      run_id out_folder image r h
    simp only [build_chapter] at h
    split at h
    · exact Except.noConfusion h
    · split at h
      · exact Except.noConfusion h
      · injection h with h
        rw [← h]

/-- Witness for C10: two calls differing only in `version` (5 vs 9) agree,
and a successful call's output file is `v3.mp4` for existing versions
`[2, 1]`. -/
theorem build_chapter_ignores_version_witness :
    build_chapter 1080 1920 200 38 ⟨1000, 2000, [⟨1, some ⟨300⟩⟩]⟩ [0] 5 false false 0 0
        [2, 1] "r" "out" "img" =
      build_chapter 1080 1920 200 38 ⟨1000, 2000, [⟨1, some ⟨300⟩⟩]⟩ [0] 9 false false 0 0
        [2, 1] "r" "out" "img" ∧
    ({ warned := false, pan_plan := [⟨1, 240⟩], audio_files := [0], out_file := "v3.mp4",
        result := run_single_img_result "r" "out/v3.mp4" "out" "img" [0] } :
        ChapterResult Nat).out_file = "v" ++ toString (nextVersion [2, 1]) ++ ".mp4" :=
  ⟨build_chapter_ignores_version.1 Nat 1080 1920 200 38 ⟨1000, 2000, [⟨1, some ⟨300⟩⟩]⟩
      [0] 5 9 false false 0 0 [2, 1] "r" "out" "img",
    build_chapter_ignores_version.2 Nat 1080 1920 200 38 ⟨1000, 2000, [⟨1, some ⟨300⟩⟩]⟩
      [0] 5 false false 0 0 [2, 1] "r" "out" "img" _ rfl⟩

end MangaNarrator
